import Mathlib

/-!
# Verification of the MCP-OFFICE document gateway

Shallow embedding of `src/server.py` (the multi-format MCP office server)
and of the single-format variant `src/unnamed/part_000` ("server - Copy.py").

Modelling conventions:
* A `pathlib.Path` value is a `PyPath`: an absoluteness flag plus the list of
  path segments.  `pathlib` drops empty and `"."` segments at construction and
  performs no `".."` resolution; the `/` operator replaces the left side when
  the right side is absolute.  Both behaviours are modelled exactly.
* Python `str.endswith` is suffix-of on the character sequence; `str.strip()`
  removes leading/trailing Python whitespace characters.
* The format libraries (`python-docx`, `openpyxl`, `python-pptx`) and the zip
  codec are external collaborators assumed correct, per the specification's
  scope: a file on disk is an `OfficeFile` recording what each library's parse
  of that file yields (`Except` for a raised parse exception) and what opening
  it as a zip archive yields (`Option` of the entry-name list, `none` when it
  is not a zip archive).  Files written by the libraries are well-formed
  packages (`mkDocxFile`, `mkXlsxFile`, `mkPptxFile`).
* The filesystem is an association list from resolved paths to files; each
  tool operation is a total function from a filesystem and its arguments to
  the returned status string and the resulting filesystem, mirroring the
  Python control flow (existence guards, try/except arms) branch by branch.
-/

namespace MCPOffice

/-! ## Python string primitives -/

/-- Python `s.endswith(suffix)`: `suffix` is a suffix of the char sequence. -/
def pyEndsWith (s suffix : String) : Bool := decide (suffix.data <:+ s.data)

/-- Characters removed by Python `str.strip()` with no argument. -/
def isPyWs (c : Char) : Bool :=
  c == ' ' || c == '\t' || c == '\n' || c == '\r' || c == '\x0b' || c == '\x0c'

/-- Python `str.strip()`: drop leading and trailing whitespace. -/
def pyStrip (s : String) : String :=
  String.mk (((s.data.dropWhile isPyWs).reverse.dropWhile isPyWs).reverse)

/-- Python truthiness fallback `t or marker` on strings. -/
def emptyOr (marker t : String) : String := if t = "" then marker else t

/-- Python `"sep".join(l)`. -/
def pyJoinSep (sep : String) (l : List String) : String := String.intercalate sep l

/-- Python `repr` of a string as it appears inside a printed list. -/
def pyRepr (s : String) : String := "\x27" ++ s ++ "\x27"

/-- Python `str` of a list of strings, e.g. `['a', 'b']`. -/
def pyListRepr (l : List String) : String :=
  "[" ++ String.intercalate ", " (l.map pyRepr) ++ "]"

/-- Substring test (Python `x in s`), via the infix relation on characters. -/
def containsSub (s x : String) : Bool := decide (x.data <:+: s.data)

/-! ## Path model (`pathlib`) -/

/-- A `pathlib` path: absoluteness flag and segment list. -/
structure PyPath where
  absolute : Bool
  segs : List String
deriving DecidableEq

/-- Split a character list on `'/'`. -/
def splitSlash : List Char → List Char → List String
  | [], cur => [String.mk cur.reverse]
  | '/' :: cs, cur => String.mk cur.reverse :: splitSlash cs []
  | c :: cs, cur => splitSlash cs (c :: cur)

/-- `pathlib` construction from a string: absolute iff it starts with `/`;
empty and `"."` segments are dropped, `".."` segments are kept. -/
def parsePath (s : String) : PyPath :=
  { absolute := match s.data with | '/' :: _ => true | _ => false
  , segs := (splitSlash s.data []).filter (fun t => !(t == "") && !(t == ".")) }

/-- `pathlib`'s `/` operator: an absolute right operand replaces the left. -/
def pyJoin (a b : PyPath) : PyPath :=
  if b.absolute then b else { absolute := a.absolute, segs := a.segs ++ b.segs }

/-- `str()` of a `pathlib` path. -/
def renderPath (p : PyPath) : String :=
  (if p.absolute then "/" else "") ++ String.intercalate "/" p.segs

/-- `DOCS_DIR = Path("./documents")` (pathlib normalizes away the `./`). -/
def DOCS_DIR : PyPath := ⟨false, ["documents"]⟩

/-- Extension normalization inside `get_path`: append `ext` iff absent. -/
def withExt (filename ext : String) : String :=
  if pyEndsWith filename ext then filename else filename ++ ext

/-- `get_path` of `src/server.py` (identical to `get_doc_path` of the
single-format variant at `ext = ".docx"`). -/
def get_path (filename ext : String) : PyPath :=
  pyJoin DOCS_DIR (parsePath (withExt filename ext))

/-! ### Path normalization (meaning of "lies within the base directory") -/

/-- One step of lexical `..` resolution. -/
def normStep (acc : List String) (s : String) : List String :=
  if s = ".." then
    match acc.getLast? with
    | none => [".."]
    | some ".." => acc ++ [".."]
    | some _ => acc.dropLast
  else acc ++ [s]

/-- Lexically resolve `..` segments; residual `..` can only be leading. -/
def normSegs (l : List String) : List String := l.foldl normStep []

/-- A path lies within the base directory `documents` iff it is relative and
its normalized segments start with `documents`. -/
def withinBase (p : PyPath) : Bool :=
  !p.absolute &&
    match normSegs p.segs with
    | "documents" :: _ => true
    | _ => false

/-! ## Content models and files on disk -/

/-- `openpyxl` workbook content: ordered sheets, each an ordered row list;
the active sheet is the first. -/
structure Workbook where
  sheets : List (String × List (List String))
deriving DecidableEq

/-- Look up a sheet's rows by name (`wb[name]`, `None` for `KeyError`). -/
def findSheet (wb : Workbook) (n : String) : Option (List (List String)) :=
  match wb.sheets.find? (fun s => s.1 == n) with
  | some s => some s.2
  | none => none

/-- `update_xlsx`'s sheet selection: append rows to the named sheet if it
exists, otherwise create it at the end (`wb.create_sheet`). -/
def wbAppend (wb : Workbook) (n : String) (rows : List (List String)) : Workbook :=
  if wb.sheets.any (fun s => s.1 == n) then
    ⟨wb.sheets.map (fun s => if s.1 == n then (s.1, s.2 ++ rows) else s)⟩
  else
    ⟨wb.sheets ++ [(n, rows)]⟩

/-- A slide as the server reads and writes it: title text and the single
body placeholder text. -/
abbrev Slide := String × String

/-- Decidable equality for parse outcomes. -/
instance instDecEqExcept {ε α : Type} [DecidableEq ε] [DecidableEq α] :
    DecidableEq (Except ε α) := fun
  | .ok a, .ok b =>
      if h : a = b then .isTrue (by rw [h]) else .isFalse (by simp [h])
  | .error a, .error b =>
      if h : a = b then .isTrue (by rw [h]) else .isFalse (by simp [h])
  | .ok _, .error _ => .isFalse (by simp)
  | .error _, .ok _ => .isFalse (by simp)

/-- A file on disk, as observed through the (assumed-correct) libraries:
the outcome of each format's structured parse, and of opening it as a zip
archive (`none` = not a zip archive; `some` = its entry names). -/
structure OfficeFile where
  parseDocx : Except String (List String)
  parseXlsx : Except String Workbook
  parsePptx : Except String (List Slide)
  asZip : Option (List String)
deriving DecidableEq

/-- Zip entries of a well-formed Word package (contains the manifest). -/
def wordZipEntries : List String :=
  ["[Content_Types].xml", "_rels/.rels", "docProps/core.xml",
   "word/document.xml", "word/styles.xml"]

/-- Zip entries of a well-formed Excel package. -/
def xlsxZipEntries : List String :=
  ["[Content_Types].xml", "_rels/.rels", "docProps/core.xml",
   "xl/workbook.xml", "xl/worksheets/sheet1.xml"]

/-- Zip entries of a well-formed PowerPoint package. -/
def pptxZipEntries : List String :=
  ["[Content_Types].xml", "_rels/.rels", "docProps/core.xml",
   "ppt/presentation.xml", "ppt/slides/slide1.xml"]

/-- A well-formed Word document holding the given paragraphs. -/
def mkDocxFile (paras : List String) : OfficeFile :=
  { parseDocx := .ok paras
  , parseXlsx := .error "not a spreadsheet package"
  , parsePptx := .error "not a presentation package"
  , asZip := some wordZipEntries }

/-- A well-formed Excel workbook file. -/
def mkXlsxFile (wb : Workbook) : OfficeFile :=
  { parseDocx := .error "not a word package"
  , parseXlsx := .ok wb
  , parsePptx := .error "not a presentation package"
  , asZip := some xlsxZipEntries }

/-- A well-formed PowerPoint file holding the given slides. -/
def mkPptxFile (slides : List Slide) : OfficeFile :=
  { parseDocx := .error "not a word package"
  , parseXlsx := .error "not a spreadsheet package"
  , parsePptx := .ok slides
  , asZip := some pptxZipEntries }

/-! ## Filesystem -/

/-- The documents directory contents: resolved path to file. -/
abbrev FS := List (PyPath × OfficeFile)

/-- Read the file at a path, if present. -/
def lookupF (fs : FS) (p : PyPath) : Option OfficeFile :=
  (fs.find? (fun e => decide (e.1 = p))).map (fun e => e.2)

/-- `path.exists()`. -/
def existsF (fs : FS) (p : PyPath) : Bool := (lookupF fs p).isSome

/-- Save a file at a path (overwriting any previous file there). -/
def insertF (fs : FS) (p : PyPath) (f : OfficeFile) : FS :=
  (p, f) :: fs.filter (fun e => !(decide (e.1 = p)))

/-- `os.remove(path)`. -/
def removeF (fs : FS) (p : PyPath) : FS :=
  fs.filter (fun e => !(decide (e.1 = p)))

/-! ## Word tools (`src/server.py`, `.docx`) -/

/-- `create_docx(filename, content="")`. -/
def create_docx (fs : FS) (filename content : String) : String × FS :=
  let path := get_path filename ".docx"
  if existsF fs path then
    ("❌ File already exists: " ++ renderPath path, fs)
  else
    let para := if pyStrip content = "" then "(new document)" else content
    ("✅ Created Word document: " ++ renderPath path,
     insertF fs path (mkDocxFile [para]))

/-- `read_docx(filename)`: on a parse exception, inspect the zip archive for
the Word manifest entry; otherwise report the generic failure. -/
def read_docx (fs : FS) (filename : String) : String :=
  let path := get_path filename ".docx"
  match lookupF fs path with
  | none => "❌ File not found: " ++ renderPath path
  | some file =>
    match file.parseDocx with
    | .ok paras => emptyOr "(empty document)" (pyJoinSep "\n" paras)
    | .error e =>
      match file.asZip with
      | some files =>
        if files.contains "word/document.xml" then
          "❌ Failed to read Word doc: " ++ e
        else
          "❌ Not a Word file. Contains: " ++ pyListRepr (files.take 10) ++ "..."
      | none => "❌ Failed to read Word doc: " ++ e

/-- `update_docx(filename, changes)`: append one paragraph per change. -/
def update_docx (fs : FS) (filename : String) (changes : List String) :
    String × FS :=
  let path := get_path filename ".docx"
  match lookupF fs path with
  | none => ("❌ File not found: " ++ renderPath path, fs)
  | some file =>
    match file.parseDocx with
    | .error e => ("❌ Failed to update Word doc: " ++ e, fs)
    | .ok paras =>
      ("✅ Updated Word doc " ++ filename ++ " with " ++
         toString changes.length ++ " changes.",
       insertF fs path (mkDocxFile (paras ++ changes)))

/-- `delete_docx(filename)`. -/
def delete_docx (fs : FS) (filename : String) : String × FS :=
  let path := get_path filename ".docx"
  if existsF fs path then
    ("🗑️ Deleted Word doc: " ++ renderPath path, removeF fs path)
  else
    ("❌ File not found: " ++ renderPath path, fs)

/-! ## Excel tools (`src/server.py`, `.xlsx`) -/

/-- `create_xlsx(filename, sheet_name="Sheet1", data=None)`: fresh workbook,
active sheet retitled, rows appended. -/
def create_xlsx (fs : FS) (filename sheet_name : String)
    (data : List (List String)) : String × FS :=
  let path := get_path filename ".xlsx"
  if existsF fs path then
    ("❌ File already exists: " ++ renderPath path, fs)
  else
    ("✅ Created Excel file: " ++ renderPath path,
     insertF fs path (mkXlsxFile ⟨[(sheet_name, data)]⟩))

/-- `read_xlsx(filename, sheet_name=None)`: the named sheet (a `KeyError`
if absent) or the active (first) sheet; cells joined by `", "`, rows by
newline. -/
def read_xlsx (fs : FS) (filename : String) (sheet_name : Option String) :
    String :=
  let path := get_path filename ".xlsx"
  match lookupF fs path with
  | none => "❌ File not found: " ++ renderPath path
  | some file =>
    match file.parseXlsx with
    | .error e => "❌ Failed to read Excel: " ++ e
    | .ok wb =>
      match sheet_name with
      | some n =>
        match findSheet wb n with
        | none =>
          "❌ Failed to read Excel: " ++
            "\x27Worksheet " ++ n ++ " does not exist.\x27"
        | some rows =>
          emptyOr "(empty sheet)" (pyJoinSep "\n" (rows.map (pyJoinSep ", ")))
      | none =>
        match wb.sheets with
        | [] => "❌ Failed to read Excel: workbook has no active sheet"
        | s :: _ =>
          emptyOr "(empty sheet)" (pyJoinSep "\n" (s.2.map (pyJoinSep ", ")))

/-- `update_xlsx(filename, sheet_name, data)`: append rows to the named
sheet, creating it if absent. -/
def update_xlsx (fs : FS) (filename sheet_name : String)
    (data : List (List String)) : String × FS :=
  let path := get_path filename ".xlsx"
  match lookupF fs path with
  | none => ("❌ File not found: " ++ renderPath path, fs)
  | some file =>
    match file.parseXlsx with
    | .error e => ("❌ Failed to update Excel: " ++ e, fs)
    | .ok wb =>
      ("✅ Updated Excel file " ++ filename ++ " with " ++
         toString data.length ++ " rows.",
       insertF fs path (mkXlsxFile (wbAppend wb sheet_name data)))

/-- `delete_xlsx(filename)`. -/
def delete_xlsx (fs : FS) (filename : String) : String × FS :=
  let path := get_path filename ".xlsx"
  if existsF fs path then
    ("🗑️ Deleted Excel file: " ++ renderPath path, removeF fs path)
  else
    ("❌ File not found: " ++ renderPath path, fs)

/-! ## PowerPoint tools (`src/server.py`, `.pptx`) -/

/-- `create_pptx(filename, title="New Presentation", content="")`: one
title slide whose title and body placeholder are set. -/
def create_pptx (fs : FS) (filename title content : String) : String × FS :=
  let path := get_path filename ".pptx"
  if existsF fs path then
    ("❌ File already exists: " ++ renderPath path, fs)
  else
    ("✅ Created PowerPoint: " ++ renderPath path,
     insertF fs path (mkPptxFile [(title, content)]))

/-- Rendering of one slide's text block in `read_pptx`: the text-bearing
shapes of a slide built by this server are its title and body placeholder. -/
def renderSlides (slides : List Slide) : String :=
  pyJoinSep "\n\n"
    ((List.enumFrom 1 slides).map
      (fun e => "Slide " ++ toString e.1 ++ ":\n" ++ (e.2.1 ++ "\n" ++ e.2.2)))

/-- `read_pptx(filename)`: numbered per-slide text dump. -/
def read_pptx (fs : FS) (filename : String) : String :=
  let path := get_path filename ".pptx"
  match lookupF fs path with
  | none => "❌ File not found: " ++ renderPath path
  | some file =>
    match file.parsePptx with
    | .error e => "❌ Failed to read PowerPoint: " ++ e
    | .ok slides => emptyOr "(empty presentation)" (renderSlides slides)

/-- `update_pptx(filename, slides)`: append one title+content slide per
payload entry (each dict modelled as its title/content pair). -/
def update_pptx (fs : FS) (filename : String) (slides : List Slide) :
    String × FS :=
  let path := get_path filename ".pptx"
  match lookupF fs path with
  | none => ("❌ File not found: " ++ renderPath path, fs)
  | some file =>
    match file.parsePptx with
    | .error e => ("❌ Failed to update PowerPoint: " ++ e, fs)
    | .ok old =>
      ("✅ Updated PowerPoint " ++ filename ++ " with " ++
         toString slides.length ++ " new slides.",
       insertF fs path (mkPptxFile (old ++ slides)))

/-- `delete_pptx(filename)`. -/
def delete_pptx (fs : FS) (filename : String) : String × FS :=
  let path := get_path filename ".pptx"
  if existsF fs path then
    ("🗑️ Deleted PowerPoint: " ++ renderPath path, removeF fs path)
  else
    ("❌ File not found: " ++ renderPath path, fs)

/-! ## Single-format variant (`src/unnamed/part_000`) -/

/-- `read_docx` of the single-format variant, whose diagnosis distinguishes
all three failure tiers (including "possibly corrupted" when the file is
not a zip archive at all). -/
def read_docx_copy (fs : FS) (filename : String) : String :=
  let path := get_path filename ".docx"
  match lookupF fs path with
  | none => "❌ File not found: " ++ renderPath path
  | some file =>
    match file.parseDocx with
    | .ok paras => emptyOr "(empty document)" (pyJoinSep "\n" paras)
    | .error e =>
      match file.asZip with
      | some files =>
        if files.contains "word/document.xml" then
          "❌ Could not read " ++ filename ++ ": " ++ e
        else
          "❌ " ++ filename ++ " is an OOXML container but not a Word document.\n" ++
            "Contains: " ++ pyListRepr (files.take 10) ++ "..."
      | none => "❌ " ++ filename ++ " is not a valid .docx (possibly corrupted)."

/-! ## Infrastructure lemmas -/

theorem lookupF_insertF_self (fs : FS) (p : PyPath) (f : OfficeFile) :
    lookupF (insertF fs p f) p = some f := by
  simp [lookupF, insertF, List.find?]

theorem lookupF_removeF_self (fs : FS) (p : PyPath) :
    lookupF (removeF fs p) p = none := by
  unfold lookupF removeF
  induction fs with
  | nil => rfl
  | cons e t ih =>
    by_cases h : e.1 = p
    · simpa [List.filter, h] using ih
    · simpa [List.filter, h, List.find?] using ih

theorem existsF_removeF_self (fs : FS) (p : PyPath) :
    existsF (removeF fs p) p = false := by
  simp [existsF, lookupF_removeF_self]

theorem existsF_insertF_self (fs : FS) (p : PyPath) (f : OfficeFile) :
    existsF (insertF fs p f) p = true := by
  simp [existsF, lookupF_insertF_self]

theorem pyEndsWith_append (a b : String) : pyEndsWith (a ++ b) b = true := by
  simp [pyEndsWith, String.data_append]

theorem pyStrip_of_all_ws (s : String) (h : ∀ c ∈ s.data, isPyWs c = true) :
    pyStrip s = "" := by
  unfold pyStrip
  have h1 : s.data.dropWhile isPyWs = [] := List.dropWhile_eq_nil_iff.mpr h
  rw [h1]
  rfl

theorem foldl_normStep_no_dots (l : List String) (h : ∀ s ∈ l, s ≠ "..") :
    ∀ acc, List.foldl normStep acc l = acc ++ l := by
  induction l with
  | nil => intro acc; simp
  | cons x t ih =>
    intro acc
    have hx : x ≠ ".." := h x (by simp)
    have ht : ∀ s ∈ t, s ≠ ".." := fun s hs => h s (by simp [hs])
    simp only [List.foldl, normStep, if_neg hx]
    rw [ih ht (acc ++ [x])]
    simp

/-! ## C2 — path confinement -/

/-- C2 counterexample: the claim "no input name produces a path outside the
base directory" is false — a parent-directory segment and an absolute prefix
both escape `documents`. -/
theorem c2_counterexample :
    withinBase (get_path "../secret" ".docx") = false ∧
    withinBase (get_path "/tmp/x" ".docx") = false := by
  constructor <;> decide

/-- C2 amended: the resolver performs no traversal guard, so not every
input name resolves within the base directory (a name with an absolute
prefix, or whose parent-directory segments ascend past the base, escapes);
every input name that is relative and contains no parent-directory segment
resolves within `documents`. -/
theorem c2_confinement_for_safe_names (filename : String)
    (habs : (parsePath (withExt filename ".docx")).absolute = false)
    (hdots : ".." ∉ (parsePath (withExt filename ".docx")).segs) :
    withinBase (get_path filename ".docx") = true := by
  unfold get_path pyJoin withinBase DOCS_DIR
  rw [habs]
  simp only [Bool.false_eq_true, if_false]
  have hno : ∀ s ∈ (parsePath (withExt filename ".docx")).segs, s ≠ ".." :=
    fun s hs heq => hdots (heq ▸ hs)
  have : normSegs ("documents" :: (parsePath (withExt filename ".docx")).segs)
      = "documents" :: (parsePath (withExt filename ".docx")).segs := by
    unfold normSegs
    simp only [List.foldl]
    have hstep : normStep [] "documents" = ["documents"] := by decide
    rw [hstep, foldl_normStep_no_dots _ hno ["documents"]]
    rfl
  simpa [this]

/-- C2 witness. -/
theorem c2_witness :
    (parsePath (withExt "report" ".docx")).absolute = false ∧
    ".." ∉ (parsePath (withExt "report" ".docx")).segs ∧
    withinBase (get_path "report" ".docx") = true :=
  ⟨by decide, by decide,
   c2_confinement_for_safe_names "report" (by decide) (by decide)⟩

/-! ## C5 — extension normalization -/

/-- C5: the resolver appends the canonical suffix exactly when absent and
uses the name as-is otherwise; `resolve("report")` and `resolve("report.docx")`
yield the identical path, and creating under one name then the other yields
the AlreadyExists failure on the second create. -/
theorem c5_extension_normalization :
    (∀ name ext, pyEndsWith name ext = false →
        withExt name ext = name ++ ext ∧
        get_path name ext = get_path (name ++ ext) ext) ∧
    (∀ name ext, pyEndsWith name ext = true → withExt name ext = name) ∧
    (∀ fs c c₂, existsF fs (get_path "report" ".docx") = false →
        (create_docx ((create_docx fs "report" c).2) "report.docx" c₂).1 =
          "❌ File already exists: " ++ renderPath (get_path "report" ".docx")) := by
  refine ⟨fun name ext h => ?_, fun name ext h => ?_, fun fs c c₂ h => ?_⟩
  · have h1 : withExt name ext = name ++ ext := by simp [withExt, h]
    refine ⟨h1, ?_⟩
    unfold get_path
    rw [h1, withExt, if_pos (pyEndsWith_append name ext)]
  · simp [withExt, h]
  · have hp : get_path "report.docx" ".docx" = get_path "report" ".docx" := by
      decide
    simp [create_docx, h, hp, existsF_insertF_self]

/-- C5 witness. -/
theorem c5_witness :
    withExt "report" ".docx" = "report" ++ ".docx" ∧
    get_path "report" ".docx" = get_path ("report" ++ ".docx") ".docx" ∧
    withExt "report.docx" ".docx" = "report.docx" ∧
    (create_docx ((create_docx [] "report" "hi").2) "report.docx" "ho").1 =
      "❌ File already exists: " ++ renderPath (get_path "report" ".docx") :=
  ⟨(c5_extension_normalization.1 "report" ".docx" (by decide)).1,
   (c5_extension_normalization.1 "report" ".docx" (by decide)).2,
   c5_extension_normalization.2.1 "report.docx" ".docx" (by decide),
   c5_extension_normalization.2.2 [] "hi" "ho" (by decide)⟩

/-! ## C10 — whitespace-only content placeholder -/

/-- C10: Word create with non-empty but all-whitespace content stores the
single placeholder paragraph `(new document)` instead of the given content. -/
theorem c10_blank_content_placeholder (fs : FS) (filename content : String)
    (hne : content ≠ "")
    (hws : ∀ c ∈ content.data, isPyWs c = true)
    (hfresh : existsF fs (get_path filename ".docx") = false) :
    (create_docx fs filename content).1 =
      "✅ Created Word document: " ++ renderPath (get_path filename ".docx") ∧
    lookupF (create_docx fs filename content).2 (get_path filename ".docx") =
      some (mkDocxFile ["(new document)"]) := by
  have hstrip : pyStrip content = "" := pyStrip_of_all_ws content hws
  constructor <;> simp [create_docx, hfresh, hstrip, lookupF_insertF_self]

/-- C10 witness: three spaces. -/
theorem c10_witness :
    ("   " : String) ≠ "" ∧
    lookupF (create_docx [] "memo" "   ").2 (get_path "memo" ".docx") =
      some (mkDocxFile ["(new document)"]) :=
  ⟨by decide,
   (c10_blank_content_placeholder [] "memo" "   " (by decide)
     (by decide) (by decide)).2⟩

theorem lookupF_none_of_existsF (fs : FS) (p : PyPath)
    (h : existsF fs p = false) : lookupF fs p = none := by
  unfold existsF at h
  cases hl : lookupF fs p with
  | none => rfl
  | some f => rw [hl] at h; simp at h

/-! ## C4 — lifecycle guards and idempotent delete -/

/-- C4: for every format, create on an existing target returns the
AlreadyExists failure and writes nothing; read, update and delete on an
absent target return the NotFound failure; a second delete after a
successful delete returns NotFound. -/
theorem c4_lifecycle_guards (fs : FS) (n : String) :
    ((∀ c, existsF fs (get_path n ".docx") = true →
        create_docx fs n c =
          ("❌ File already exists: " ++ renderPath (get_path n ".docx"), fs)) ∧
     (∀ sn data, existsF fs (get_path n ".xlsx") = true →
        create_xlsx fs n sn data =
          ("❌ File already exists: " ++ renderPath (get_path n ".xlsx"), fs)) ∧
     (∀ t c, existsF fs (get_path n ".pptx") = true →
        create_pptx fs n t c =
          ("❌ File already exists: " ++ renderPath (get_path n ".pptx"), fs))) ∧
    ((existsF fs (get_path n ".docx") = false →
        read_docx fs n = "❌ File not found: " ++ renderPath (get_path n ".docx") ∧
        (∀ cs, update_docx fs n cs =
          ("❌ File not found: " ++ renderPath (get_path n ".docx"), fs)) ∧
        delete_docx fs n =
          ("❌ File not found: " ++ renderPath (get_path n ".docx"), fs)) ∧
     (existsF fs (get_path n ".xlsx") = false →
        (∀ sn, read_xlsx fs n sn =
          "❌ File not found: " ++ renderPath (get_path n ".xlsx")) ∧
        (∀ sn data, update_xlsx fs n sn data =
          ("❌ File not found: " ++ renderPath (get_path n ".xlsx"), fs)) ∧
        delete_xlsx fs n =
          ("❌ File not found: " ++ renderPath (get_path n ".xlsx"), fs)) ∧
     (existsF fs (get_path n ".pptx") = false →
        read_pptx fs n = "❌ File not found: " ++ renderPath (get_path n ".pptx") ∧
        (∀ sl, update_pptx fs n sl =
          ("❌ File not found: " ++ renderPath (get_path n ".pptx"), fs)) ∧
        delete_pptx fs n =
          ("❌ File not found: " ++ renderPath (get_path n ".pptx"), fs))) ∧
    ((existsF fs (get_path n ".docx") = true →
        (delete_docx (delete_docx fs n).2 n).1 =
          "❌ File not found: " ++ renderPath (get_path n ".docx")) ∧
     (existsF fs (get_path n ".xlsx") = true →
        (delete_xlsx (delete_xlsx fs n).2 n).1 =
          "❌ File not found: " ++ renderPath (get_path n ".xlsx")) ∧
     (existsF fs (get_path n ".pptx") = true →
        (delete_pptx (delete_pptx fs n).2 n).1 =
          "❌ File not found: " ++ renderPath (get_path n ".pptx"))) := by
  refine ⟨⟨fun c h => ?_, fun sn data h => ?_, fun t c h => ?_⟩,
          ⟨fun h => ?_, fun h => ?_, fun h => ?_⟩,
          ⟨fun h => ?_, fun h => ?_, fun h => ?_⟩⟩
  · simp [create_docx, h]
  · simp [create_xlsx, h]
  · simp [create_pptx, h]
  · have hn := lookupF_none_of_existsF _ _ h
    exact ⟨by simp [read_docx, hn], fun cs => by simp [update_docx, hn],
           by simp [delete_docx, h]⟩
  · have hn := lookupF_none_of_existsF _ _ h
    exact ⟨fun sn => by simp [read_xlsx, hn],
           fun sn data => by simp [update_xlsx, hn],
           by simp [delete_xlsx, h]⟩
  · have hn := lookupF_none_of_existsF _ _ h
    exact ⟨by simp [read_pptx, hn], fun sl => by simp [update_pptx, hn],
           by simp [delete_pptx, h]⟩
  · simp [delete_docx, h, existsF_removeF_self]
  · simp [delete_xlsx, h, existsF_removeF_self]
  · simp [delete_pptx, h, existsF_removeF_self]

/-- C4 witness: the docx file `a` exists, nothing else does. -/
theorem c4_witness :
    create_docx [(get_path "a" ".docx", mkDocxFile ["x"])] "a" "c" =
      ("❌ File already exists: " ++ renderPath (get_path "a" ".docx"),
       [(get_path "a" ".docx", mkDocxFile ["x"])]) ∧
    read_xlsx [(get_path "a" ".docx", mkDocxFile ["x"])] "a" none =
      "❌ File not found: " ++ renderPath (get_path "a" ".xlsx") ∧
    (delete_docx
      (delete_docx [(get_path "a" ".docx", mkDocxFile ["x"])] "a").2 "a").1 =
      "❌ File not found: " ++ renderPath (get_path "a" ".docx") :=
  ⟨(c4_lifecycle_guards [(get_path "a" ".docx", mkDocxFile ["x"])] "a").1.1
     "c" (by decide),
   ((c4_lifecycle_guards [(get_path "a" ".docx", mkDocxFile ["x"])] "a").2.1.2.1
     (by decide)).1 none,
   (c4_lifecycle_guards [(get_path "a" ".docx", mkDocxFile ["x"])] "a").2.2.1
     (by decide)⟩

/-! ## C7 — result markers and exception discipline -/

/-- Does the string begin with one of the fixed outcome markers? -/
def startsMarker (s : String) : Bool :=
  match s.data.head? with
  | some c => c == '✅' || c == '❌' || c == '🗑'
  | none => false

theorem startsMarker_append (a b : String) (h : startsMarker a = true) :
    startsMarker (a ++ b) = true := by
  unfold startsMarker at *
  rw [String.data_append]
  cases hd : a.data with
  | nil => rw [hd] at h; simp at h
  | cons x xs => rw [hd] at h; simpa using h

/-- C7 counterexample: a successful read returns the document's own text,
which does not begin with any outcome marker — so not every operation result
is marker-prefixed. -/
theorem c7_counterexample :
    read_docx [(get_path "memo" ".docx", mkDocxFile ["Hello"])] "memo" =
      "Hello" ∧
    startsMarker "Hello" = false := by
  constructor <;> decide

/-- C7 amended: no operation propagates an exception (each is a total
function into status strings); every create, update and delete result begins
with a fixed marker, and every read result either begins with a marker (all
failure paths) or is the rendering of the successfully parsed content. -/
theorem c7_marker_discipline :
    (∀ fs n c, startsMarker (create_docx fs n c).1 = true) ∧
    (∀ fs n cs, startsMarker (update_docx fs n cs).1 = true) ∧
    (∀ fs n, startsMarker (delete_docx fs n).1 = true) ∧
    (∀ fs n sn data, startsMarker (create_xlsx fs n sn data).1 = true) ∧
    (∀ fs n sn data, startsMarker (update_xlsx fs n sn data).1 = true) ∧
    (∀ fs n, startsMarker (delete_xlsx fs n).1 = true) ∧
    (∀ fs n t c, startsMarker (create_pptx fs n t c).1 = true) ∧
    (∀ fs n sl, startsMarker (update_pptx fs n sl).1 = true) ∧
    (∀ fs n, startsMarker (delete_pptx fs n).1 = true) ∧
    (∀ fs n, startsMarker (read_docx fs n) = true ∨
       ∃ file paras, lookupF fs (get_path n ".docx") = some file ∧
         file.parseDocx = .ok paras ∧
         read_docx fs n = emptyOr "(empty document)" (pyJoinSep "\n" paras)) ∧
    (∀ fs n sn, startsMarker (read_xlsx fs n sn) = true ∨
       ∃ (file : OfficeFile) (wb : Workbook) (rows : List (List String)),
         lookupF fs (get_path n ".xlsx") = some file ∧
         file.parseXlsx = .ok wb ∧
         read_xlsx fs n sn =
           emptyOr "(empty sheet)"
             (pyJoinSep "\n" (rows.map (pyJoinSep ", ")))) ∧
    (∀ fs n, startsMarker (read_pptx fs n) = true ∨
       ∃ file slides, lookupF fs (get_path n ".pptx") = some file ∧
         file.parsePptx = .ok slides ∧
         read_pptx fs n = emptyOr "(empty presentation)" (renderSlides slides)) := by
  refine ⟨fun fs n c => ?_, fun fs n cs => ?_, fun fs n => ?_,
          fun fs n sn data => ?_, fun fs n sn data => ?_, fun fs n => ?_,
          fun fs n t c => ?_, fun fs n sl => ?_, fun fs n => ?_,
          fun fs n => ?_, fun fs n sn => ?_, fun fs n => ?_⟩
  · unfold create_docx
    cases hx : existsF fs (get_path n ".docx") <;> simp [hx] <;>
      (repeat apply startsMarker_append) <;> decide
  · unfold update_docx
    cases hl : lookupF fs (get_path n ".docx") with
    | none => simp [hl]; (repeat apply startsMarker_append); decide
    | some file =>
      cases hp : file.parseDocx <;> simp [hl, hp] <;>
        (repeat apply startsMarker_append) <;> decide
  · unfold delete_docx
    cases hx : existsF fs (get_path n ".docx") <;> simp [hx] <;>
      (repeat apply startsMarker_append) <;> decide
  · unfold create_xlsx
    cases hx : existsF fs (get_path n ".xlsx") <;> simp [hx] <;>
      (repeat apply startsMarker_append) <;> decide
  · unfold update_xlsx
    cases hl : lookupF fs (get_path n ".xlsx") with
    | none => simp [hl]; (repeat apply startsMarker_append); decide
    | some file =>
      cases hp : file.parseXlsx <;> simp [hl, hp] <;>
        (repeat apply startsMarker_append) <;> decide
  · unfold delete_xlsx
    cases hx : existsF fs (get_path n ".xlsx") <;> simp [hx] <;>
      (repeat apply startsMarker_append) <;> decide
  · unfold create_pptx
    cases hx : existsF fs (get_path n ".pptx") <;> simp [hx] <;>
      (repeat apply startsMarker_append) <;> decide
  · unfold update_pptx
    cases hl : lookupF fs (get_path n ".pptx") with
    | none => simp [hl]; (repeat apply startsMarker_append); decide
    | some file =>
      cases hp : file.parsePptx <;> simp [hl, hp] <;>
        (repeat apply startsMarker_append) <;> decide
  · unfold delete_pptx
    cases hx : existsF fs (get_path n ".pptx") <;> simp [hx] <;>
      (repeat apply startsMarker_append) <;> decide
  · cases hl : lookupF fs (get_path n ".docx") with
    | none =>
      left; unfold read_docx; simp [hl]
      (repeat apply startsMarker_append); decide
    | some file =>
      cases hp : file.parseDocx with
      | ok paras =>
        right; exact ⟨file, paras, rfl, hp, by simp [read_docx, hl, hp]⟩
      | error e =>
        left; unfold read_docx
        cases hz : file.asZip with
        | none => simp [hl, hp, hz]; (repeat apply startsMarker_append); decide
        | some files =>
          by_cases hm : "word/document.xml" ∈ files <;>
            simp [hl, hp, hz, hm] <;>
            (repeat apply startsMarker_append) <;> decide
  · cases hl : lookupF fs (get_path n ".xlsx") with
    | none =>
      left; unfold read_xlsx; simp [hl]
      (repeat apply startsMarker_append); decide
    | some file =>
      cases hp : file.parseXlsx with
      | error e =>
        left; unfold read_xlsx; simp [hl, hp]
        (repeat apply startsMarker_append); decide
      | ok wb =>
        cases sn with
        | some s =>
          cases hf : findSheet wb s with
          | none =>
            left; unfold read_xlsx; simp [hl, hp, hf]
            (repeat apply startsMarker_append); decide
          | some rows =>
            right
            exact ⟨file, wb, rows, rfl, hp, by simp [read_xlsx, hl, hp, hf]⟩
        | none =>
          cases hs : wb.sheets with
          | nil =>
            left; unfold read_xlsx; simp [hl, hp, hs]
            (repeat apply startsMarker_append); decide
          | cons s t =>
            right
            exact ⟨file, wb, s.2, rfl, hp, by simp [read_xlsx, hl, hp, hs]⟩
  · cases hl : lookupF fs (get_path n ".pptx") with
    | none =>
      left; unfold read_pptx; simp [hl]
      (repeat apply startsMarker_append); decide
    | some file =>
      cases hp : file.parsePptx with
      | ok slides =>
        right; exact ⟨file, slides, rfl, hp, by simp [read_pptx, hl, hp]⟩
      | error e =>
        left; unfold read_pptx; simp [hl, hp]
        (repeat apply startsMarker_append); decide

/-! ## C3 — append semantics -/

theorem find?_sheet_map (t : List (String × List (List String))) (n : String)
    (d : List (List String)) (pr : String × List (List String))
    (h : t.find? (fun s => s.1 == n) = some pr) :
    (t.map (fun s => if s.1 == n then (s.1, s.2 ++ d) else s)).find?
        (fun s => s.1 == n) = some (pr.1, pr.2 ++ d) := by
  induction t with
  | nil => simp at h
  | cons u t ih =>
    by_cases hu : (u.1 == n) = true
    · simp only [List.find?_cons, hu] at h
      have hpr := Option.some.inj h
      subst hpr
      have he : u.1 = n := by simpa using hu
      simp [List.find?_cons, he]
    · have hb : (u.1 == n) = false := by simpa using hu
      simp only [List.find?_cons, hb] at h
      simp only [List.map_cons, List.find?_cons, hb]
      simpa [hb] using ih h

theorem findSheet_wbAppend (wb : Workbook) (n : String)
    (rs d : List (List String)) (h : findSheet wb n = some rs) :
    findSheet (wbAppend wb n d) n = some (rs ++ d) := by
  unfold findSheet at h
  cases hf : wb.sheets.find? (fun s => s.1 == n) with
  | none => rw [hf] at h; simp at h
  | some pr =>
    rw [hf] at h
    have hrs : pr.2 = rs := by simpa using h
    have hpa := List.find?_some hf
    have hany : wb.sheets.any (fun s => s.1 == n) = true := by
      rw [List.any_eq_true]
      exact ⟨pr, List.mem_of_find?_eq_some hf, hpa⟩
    unfold wbAppend
    rw [if_pos hany]
    unfold findSheet
    simp only
    rw [find?_sheet_map _ _ _ _ hf, hrs]

/-- C3: update appends the payload after the existing elements — Word
paragraphs, rows in the named sheet, Presentation slides — so a subsequent
read observes the old content followed by the new in order, and the success
message reports a count equal to the payload length. -/
theorem c3_append_semantics (fs : FS) (filename : String) :
    (∀ ps cs, lookupF fs (get_path filename ".docx") = some (mkDocxFile ps) →
        (update_docx fs filename cs).1 =
          "✅ Updated Word doc " ++ filename ++ " with " ++
            toString cs.length ++ " changes." ∧
        lookupF (update_docx fs filename cs).2 (get_path filename ".docx") =
          some (mkDocxFile (ps ++ cs)) ∧
        read_docx (update_docx fs filename cs).2 filename =
          emptyOr "(empty document)" (pyJoinSep "\n" (ps ++ cs))) ∧
    (∀ wb sn rs data,
        lookupF fs (get_path filename ".xlsx") = some (mkXlsxFile wb) →
        findSheet wb sn = some rs →
        (update_xlsx fs filename sn data).1 =
          "✅ Updated Excel file " ++ filename ++ " with " ++
            toString data.length ++ " rows." ∧
        findSheet (wbAppend wb sn data) sn = some (rs ++ data) ∧
        lookupF (update_xlsx fs filename sn data).2 (get_path filename ".xlsx") =
          some (mkXlsxFile (wbAppend wb sn data)) ∧
        read_xlsx (update_xlsx fs filename sn data).2 filename (some sn) =
          emptyOr "(empty sheet)"
            (pyJoinSep "\n" ((rs ++ data).map (pyJoinSep ", ")))) ∧
    (∀ sl new, lookupF fs (get_path filename ".pptx") = some (mkPptxFile sl) →
        (update_pptx fs filename new).1 =
          "✅ Updated PowerPoint " ++ filename ++ " with " ++
            toString new.length ++ " new slides." ∧
        lookupF (update_pptx fs filename new).2 (get_path filename ".pptx") =
          some (mkPptxFile (sl ++ new)) ∧
        read_pptx (update_pptx fs filename new).2 filename =
          emptyOr "(empty presentation)" (renderSlides (sl ++ new))) := by
  refine ⟨fun ps cs h => ?_, fun wb sn rs data h hf => ?_, fun sl new h => ?_⟩
  · refine ⟨?_, ?_, ?_⟩
    · simp [update_docx, h, mkDocxFile]
    · simp [update_docx, h, mkDocxFile, lookupF_insertF_self]
    · simp [read_docx, update_docx, h, mkDocxFile, lookupF_insertF_self]
  · have hf2 := findSheet_wbAppend wb sn rs data hf
    refine ⟨?_, hf2, ?_, ?_⟩
    · simp [update_xlsx, h, mkXlsxFile]
    · simp [update_xlsx, h, mkXlsxFile, lookupF_insertF_self]
    · simp [read_xlsx, update_xlsx, h, mkXlsxFile, lookupF_insertF_self, hf2]
  · refine ⟨?_, ?_, ?_⟩
    · simp [update_pptx, h, mkPptxFile]
    · simp [update_pptx, h, mkPptxFile, lookupF_insertF_self]
    · simp [read_pptx, update_pptx, h, mkPptxFile, lookupF_insertF_self]

/-- C3 witness: documents with content `[x, y]`, payload `[a, b, c]`. -/
theorem c3_witness :
    read_docx
      (update_docx [(get_path "doc" ".docx", mkDocxFile ["x", "y"])]
        "doc" ["a", "b", "c"]).2 "doc" =
      emptyOr "(empty document)" (pyJoinSep "\n" (["x", "y"] ++ ["a", "b", "c"])) ∧
    findSheet
      (wbAppend ⟨[("Sheet1", [["x"], ["y"]])]⟩ "Sheet1" [["a"], ["b"], ["c"]])
      "Sheet1" = some ([["x"], ["y"]] ++ [["a"], ["b"], ["c"]]) ∧
    (update_pptx [(get_path "doc" ".pptx", mkPptxFile [("x", "y")])]
        "doc" [("a", "b")]).1 =
      "✅ Updated PowerPoint " ++ "doc" ++ " with " ++
        toString ([("a", "b")] : List Slide).length ++ " new slides." :=
  ⟨((c3_append_semantics [(get_path "doc" ".docx", mkDocxFile ["x", "y"])]
      "doc").1 ["x", "y"] ["a", "b", "c"] (by decide)).2.2,
   ((c3_append_semantics [(get_path "doc" ".xlsx",
        mkXlsxFile ⟨[("Sheet1", [["x"], ["y"]])]⟩)] "doc").2.1
      ⟨[("Sheet1", [["x"], ["y"]])]⟩ "Sheet1" [["x"], ["y"]]
      [["a"], ["b"], ["c"]] (by decide) (by decide)).2.1,
   ((c3_append_semantics [(get_path "doc" ".pptx", mkPptxFile [("x", "y")])]
      "doc").2.2 [("x", "y")] [("a", "b")] (by decide)).1⟩

/-! ## C8 — create/read round trip -/

/-- C8: for every format and fresh name, creating with content `"X"` and
then reading succeeds and returns a string containing `"X"`. -/
theorem c8_round_trip (fs : FS) (n : String) :
    (existsF fs (get_path n ".docx") = false →
        read_docx (create_docx fs n "X").2 n = "X" ∧
        containsSub (read_docx (create_docx fs n "X").2 n) "X" = true) ∧
    (existsF fs (get_path n ".xlsx") = false →
        read_xlsx (create_xlsx fs n "Sheet1" [["X"]]).2 n none = "X" ∧
        containsSub (read_xlsx (create_xlsx fs n "Sheet1" [["X"]]).2 n none)
          "X" = true) ∧
    (existsF fs (get_path n ".pptx") = false →
        read_pptx (create_pptx fs n "New Presentation" "X").2 n =
          "Slide 1:\nNew Presentation\nX" ∧
        containsSub (read_pptx (create_pptx fs n "New Presentation" "X").2 n)
          "X" = true) := by
  refine ⟨fun h => ?_, fun h => ?_, fun h => ?_⟩
  · have hc : (if pyStrip "X" = "" then "(new document)" else "X") = "X" := by
      decide
    have hr : read_docx (create_docx fs n "X").2 n = "X" := by
      simp [read_docx, create_docx, h, hc, lookupF_insertF_self, mkDocxFile] <;>
        decide
    exact ⟨hr, by rw [hr]; decide⟩
  · have hr : read_xlsx (create_xlsx fs n "Sheet1" [["X"]]).2 n none = "X" := by
      simp [read_xlsx, create_xlsx, h, lookupF_insertF_self, mkXlsxFile] <;>
        decide
    exact ⟨hr, by rw [hr]; decide⟩
  · have hr : read_pptx (create_pptx fs n "New Presentation" "X").2 n =
        "Slide 1:\nNew Presentation\nX" := by
      simp [read_pptx, create_pptx, h, lookupF_insertF_self, mkPptxFile] <;>
        decide
    exact ⟨hr, by rw [hr]; decide⟩

/-- C8 witness: the empty filesystem. -/
theorem c8_witness :
    read_docx (create_docx [] "memo" "X").2 "memo" = "X" ∧
    read_xlsx (create_xlsx [] "memo" "Sheet1" [["X"]]).2 "memo" none = "X" ∧
    read_pptx (create_pptx [] "memo" "New Presentation" "X").2 "memo" =
      "Slide 1:\nNew Presentation\nX" :=
  ⟨((c8_round_trip [] "memo").1 (by decide)).1,
   ((c8_round_trip [] "memo").2.1 (by decide)).1,
   ((c8_round_trip [] "memo").2.2 (by decide)).1⟩

/-! ## C9 — empty-content markers -/

theorem emptyOr_ne (m t : String) (hm : m ≠ "") : emptyOr m t ≠ "" := by
  unfold emptyOr
  by_cases h : t = ""
  · rw [if_pos h]; exact hm
  · rw [if_neg h]; exact h

theorem emptyOr_of_empty (m t : String) (h : t = "") : emptyOr m t = m := by
  simp [emptyOr, h]

/-- C9: a successful read never returns the empty string; when the content
renders to the empty string the format's fixed empty marker is returned. -/
theorem c9_empty_markers (fs : FS) (n : String) :
    (∀ file paras, lookupF fs (get_path n ".docx") = some file →
        file.parseDocx = .ok paras →
        read_docx fs n ≠ "" ∧
        (pyJoinSep "\n" paras = "" → read_docx fs n = "(empty document)")) ∧
    (∀ file wb, lookupF fs (get_path n ".xlsx") = some file →
        file.parseXlsx = .ok wb →
        (∀ sn (rows : List (List String)), findSheet wb sn = some rows →
            read_xlsx fs n (some sn) ≠ "" ∧
            (pyJoinSep "\n" (rows.map (pyJoinSep ", ")) = "" →
              read_xlsx fs n (some sn) = "(empty sheet)")) ∧
        (∀ s t, wb.sheets = s :: t →
            read_xlsx fs n none ≠ "" ∧
            (pyJoinSep "\n" (s.2.map (pyJoinSep ", ")) = "" →
              read_xlsx fs n none = "(empty sheet)"))) ∧
    (∀ file slides, lookupF fs (get_path n ".pptx") = some file →
        file.parsePptx = .ok slides →
        read_pptx fs n ≠ "" ∧
        (renderSlides slides = "" →
          read_pptx fs n = "(empty presentation)")) := by
  refine ⟨fun file paras hl hp => ?_, fun file wb hl hp => ⟨?_, ?_⟩,
          fun file slides hl hp => ?_⟩
  · have hr : read_docx fs n =
        emptyOr "(empty document)" (pyJoinSep "\n" paras) := by
      simp [read_docx, hl, hp]
    exact ⟨by rw [hr]; exact emptyOr_ne _ _ (by decide),
           fun he => by rw [hr]; exact emptyOr_of_empty _ _ he⟩
  · intro sn rows hf
    have hr : read_xlsx fs n (some sn) =
        emptyOr "(empty sheet)" (pyJoinSep "\n" (rows.map (pyJoinSep ", "))) := by
      simp [read_xlsx, hl, hp, hf]
    exact ⟨by rw [hr]; exact emptyOr_ne _ _ (by decide),
           fun he => by rw [hr]; exact emptyOr_of_empty _ _ he⟩
  · intro s t hs
    have hr : read_xlsx fs n none =
        emptyOr "(empty sheet)" (pyJoinSep "\n" (s.2.map (pyJoinSep ", "))) := by
      simp [read_xlsx, hl, hp, hs]
    exact ⟨by rw [hr]; exact emptyOr_ne _ _ (by decide),
           fun he => by rw [hr]; exact emptyOr_of_empty _ _ he⟩
  · have hr : read_pptx fs n =
        emptyOr "(empty presentation)" (renderSlides slides) := by
      simp [read_pptx, hl, hp]
    exact ⟨by rw [hr]; exact emptyOr_ne _ _ (by decide),
           fun he => by rw [hr]; exact emptyOr_of_empty _ _ he⟩

/-- C9 witness: documents whose content renders empty. -/
theorem c9_witness :
    read_docx [(get_path "e" ".docx", mkDocxFile [])] "e" =
      "(empty document)" ∧
    read_xlsx [(get_path "e" ".xlsx", mkXlsxFile ⟨[("Sheet1", [])]⟩)]
      "e" none = "(empty sheet)" ∧
    read_pptx [(get_path "e" ".pptx", mkPptxFile [])] "e" =
      "(empty presentation)" :=
  ⟨((c9_empty_markers [(get_path "e" ".docx", mkDocxFile [])] "e").1
      (mkDocxFile []) [] (by decide) (by decide)).2 (by decide),
   (((c9_empty_markers [(get_path "e" ".xlsx", mkXlsxFile ⟨[("Sheet1", [])]⟩)]
      "e").2.1 (mkXlsxFile ⟨[("Sheet1", [])]⟩) ⟨[("Sheet1", [])]⟩
      (by decide) (by decide)).2 ("Sheet1", []) [] (by decide)).2 (by decide),
   ((c9_empty_markers [(get_path "e" ".pptx", mkPptxFile [])] "e").2.2
      (mkPptxFile []) [] (by decide) (by decide)).2 (by decide)⟩

/-! ## C1 — three-tier read-failure classification -/

/-- C1 counterexample: in the multi-format server, a Word read whose parse
raises on a file that is not a zip archive at all returns the generic
failure message, not a distinct NotAPackage classification mentioning
"possibly corrupted". -/
theorem c1_counterexample :
    read_docx [(get_path "bad" ".docx",
        ⟨Except.error "boom", Except.error "boom", Except.error "boom",
         none⟩)] "bad" =
      "❌ Failed to read Word doc: boom" ∧
    containsSub
      (read_docx [(get_path "bad" ".docx",
          ⟨Except.error "boom", Except.error "boom", Except.error "boom",
           none⟩)] "bad")
      "possibly corrupted" = false := by
  constructor <;> decide

/-- C1 amended: when a Word read's structured parse raises, the
single-format variant classifies in the claimed priority order — not a zip
archive → "possibly corrupted" (NotAPackage); archive without
`word/document.xml` → WrongSchema with the first 10 entry names; otherwise
the original parse message — while the multi-format server keeps the
WrongSchema and OtherReadError tiers but reports the not-an-archive case
with the same generic message as OtherReadError. -/
theorem c1_diagnosis_tiers (fs : FS) (filename e : String) (file : OfficeFile)
    (hl : lookupF fs (get_path filename ".docx") = some file)
    (hp : file.parseDocx = .error e) :
    (file.asZip = none →
        read_docx_copy fs filename =
          "❌ " ++ filename ++ " is not a valid .docx (possibly corrupted)." ∧
        read_docx fs filename = "❌ Failed to read Word doc: " ++ e) ∧
    (∀ files, file.asZip = some files →
        (files.contains "word/document.xml" = false →
            read_docx_copy fs filename =
              "❌ " ++ filename ++
                " is an OOXML container but not a Word document.\n" ++
                "Contains: " ++ pyListRepr (files.take 10) ++ "..." ∧
            read_docx fs filename =
              "❌ Not a Word file. Contains: " ++
                pyListRepr (files.take 10) ++ "...") ∧
        (files.contains "word/document.xml" = true →
            read_docx_copy fs filename =
              "❌ Could not read " ++ filename ++ ": " ++ e ∧
            read_docx fs filename =
              "❌ Failed to read Word doc: " ++ e)) := by
  refine ⟨fun hz => ?_, fun files hz => ⟨fun hc => ?_, fun hc => ?_⟩⟩
  · exact ⟨by simp [read_docx_copy, hl, hp, hz],
           by simp [read_docx, hl, hp, hz]⟩
  · have hm : ¬("word/document.xml" ∈ files) := by simpa using hc
    exact ⟨by simp [read_docx_copy, hl, hp, hz, hm],
           by simp [read_docx, hl, hp, hz, hm]⟩
  · have hm : "word/document.xml" ∈ files := by simpa using hc
    exact ⟨by simp [read_docx_copy, hl, hp, hz, hm],
           by simp [read_docx, hl, hp, hz, hm]⟩

/-- C1 witness: the three tiers at concrete files. -/
theorem c1_witness :
    read_docx_copy [(get_path "w" ".docx",
        ⟨Except.error "boom", Except.error "b", Except.error "b", none⟩)]
      "w" = "❌ " ++ "w" ++ " is not a valid .docx (possibly corrupted)." ∧
    read_docx_copy [(get_path "w" ".docx",
        ⟨Except.error "boom", Except.error "b", Except.error "b",
         some ["xl/workbook.xml"]⟩)] "w" =
      "❌ " ++ "w" ++ " is an OOXML container but not a Word document.\n" ++
        "Contains: " ++ pyListRepr (["xl/workbook.xml"].take 10) ++ "..." ∧
    read_docx [(get_path "w" ".docx",
        ⟨Except.error "boom", Except.error "b", Except.error "b",
         some wordZipEntries⟩)] "w" =
      "❌ Failed to read Word doc: " ++ "boom" :=
  ⟨((c1_diagnosis_tiers
      [(get_path "w" ".docx",
        ⟨Except.error "boom", Except.error "b", Except.error "b", none⟩)]
      "w" "boom"
      ⟨Except.error "boom", Except.error "b", Except.error "b", none⟩
      (by decide) (by decide)).1 (by decide)).1,
   (((c1_diagnosis_tiers
      [(get_path "w" ".docx",
        ⟨Except.error "boom", Except.error "b", Except.error "b",
         some ["xl/workbook.xml"]⟩)]
      "w" "boom"
      ⟨Except.error "boom", Except.error "b", Except.error "b",
       some ["xl/workbook.xml"]⟩
      (by decide) (by decide)).2
      ["xl/workbook.xml"] (by decide)).1 (by decide)).1,
   (((c1_diagnosis_tiers
      [(get_path "w" ".docx",
        ⟨Except.error "boom", Except.error "b", Except.error "b",
         some wordZipEntries⟩)]
      "w" "boom"
      ⟨Except.error "boom", Except.error "b", Except.error "b",
       some wordZipEntries⟩
      (by decide) (by decide)).2
      wordZipEntries (by decide)).2 (by decide)).2⟩

/-! ## C6 — which adapters run the archive diagnosis -/

/-- C6 counterexample: a spreadsheet read whose parse raises on an archive
that lacks the format's manifest entry reports the plain generic failure —
identical to when the file is not an archive at all — and surfaces no entry
names, so the Spreadsheet adapter does not hand the failure to the
archive-inspecting diagnosis. -/
theorem c6_counterexample :
    read_xlsx [(get_path "b" ".xlsx",
        ⟨Except.error "boom", Except.error "boom", Except.error "boom",
         some ["foo"]⟩)] "b" none =
      "❌ Failed to read Excel: boom" ∧
    read_xlsx [(get_path "b" ".xlsx",
        ⟨Except.error "boom", Except.error "boom", Except.error "boom",
         none⟩)] "b" none =
      "❌ Failed to read Excel: boom" ∧
    containsSub
      (read_xlsx [(get_path "b" ".xlsx",
          ⟨Except.error "boom", Except.error "boom", Except.error "boom",
           some ["foo"]⟩)] "b" none)
      "foo" = false := by
  refine ⟨by decide, by decide, by decide⟩

/-- C6 amended: only the Word adapter hands a parse failure to the
archive-inspecting diagnosis (checking `word/document.xml`); the
Spreadsheet and Presentation adapters report the generic failure directly,
with a result that does not depend on the archive contents. -/
theorem c6_word_only_diagnosis (fs : FS) (n e : String) (file : OfficeFile) :
    (∀ files, lookupF fs (get_path n ".docx") = some file →
        file.parseDocx = .error e → file.asZip = some files →
        files.contains "word/document.xml" = false →
        read_docx fs n =
          "❌ Not a Word file. Contains: " ++
            pyListRepr (files.take 10) ++ "...") ∧
    (∀ sn, lookupF fs (get_path n ".xlsx") = some file →
        file.parseXlsx = .error e →
        read_xlsx fs n sn = "❌ Failed to read Excel: " ++ e) ∧
    (lookupF fs (get_path n ".pptx") = some file →
        file.parsePptx = .error e →
        read_pptx fs n = "❌ Failed to read PowerPoint: " ++ e) := by
  refine ⟨fun files hl hp hz hc => ?_, fun sn hl hp => ?_, fun hl hp => ?_⟩
  · have hm : ¬("word/document.xml" ∈ files) := by simpa using hc
    simp [read_docx, hl, hp, hz, hm]
  · simp [read_xlsx, hl, hp]
  · simp [read_pptx, hl, hp]

/-- C6 witness. -/
theorem c6_witness :
    read_docx [(get_path "b" ".docx",
        ⟨Except.error "boom", Except.error "boom", Except.error "boom",
         some ["foo"]⟩)] "b" =
      "❌ Not a Word file. Contains: " ++
        pyListRepr (["foo"].take 10) ++ "..." ∧
    read_pptx [(get_path "b" ".pptx",
        ⟨Except.error "boom", Except.error "boom", Except.error "boom",
         some ["foo"]⟩)] "b" =
      "❌ Failed to read PowerPoint: " ++ "boom" :=
  ⟨(c6_word_only_diagnosis
      [(get_path "b" ".docx",
        ⟨Except.error "boom", Except.error "boom", Except.error "boom",
         some ["foo"]⟩)]
      "b" "boom"
      ⟨Except.error "boom", Except.error "boom", Except.error "boom",
       some ["foo"]⟩).1 ["foo"]
     (by decide) (by decide) (by decide) (by decide),
   (c6_word_only_diagnosis
      [(get_path "b" ".pptx",
        ⟨Except.error "boom", Except.error "boom", Except.error "boom",
         some ["foo"]⟩)]
      "b" "boom"
      ⟨Except.error "boom", Except.error "boom", Except.error "boom",
       some ["foo"]⟩).2.2 (by decide) (by decide)⟩

end MCPOffice
